import Mathlib

/-!
Shallow embedding of the Unlock Quota & Token Service of `server.js`
(movie-miniapp-backend): the HMAC-signed unlock-token codec
(`issueUnlockToken` / `verifyUnlockToken`), the per-subject quota record
with its lazy UTC-daily reset (`needsDailyReset`), the unlock decision
handler (`POST /unlock/:tmdb_id`) and the validation handler
(`POST /validate-unlock/:tmdb_id`).

Modelling conventions:
* JavaScript millisecond timestamps (`Date.now()`) are `Nat`.
* Strings are modelled at the byte level through their character lists;
  `Buffer.from(s)` / `buf.toString('utf8')` are `charsToBytes` /
  `bytesToChars`, which agree with Node's UTF-8 round trip exactly on
  ASCII data (every character of the canonical token alphabet is ASCII).
* Node's base64 codec is modelled by `base64encodeBytes` (canonical
  RFC 4648 encoding with padding, as `buf.toString('base64')` produces)
  and `b64decodeBytes` (forgiving decoding as `Buffer.from(t,'base64')`
  performs: non-alphabet characters are skipped, decoding stops at `=`,
  and trailing bits that do not fill a byte are discarded).
* The Firestore store is passed explicitly: the stored quota record as an
  `Option QuotaRecord` argument and result, the movies collection as a
  lookup function `String → Option MovieDoc`.
-/

/-! ### Bytes and characters -/

def charsToBytes (l : List Char) : List Nat := l.map Char.toNat

def bytesToChars (l : List Nat) : List Char := l.map Char.ofNat

theorem bytesToChars_charsToBytes (l : List Char) : bytesToChars (charsToBytes l) = l := by
  induction l with
  | nil => rfl
  | cons c cs ih =>
      show Char.ofNat c.toNat :: bytesToChars (charsToBytes cs) = c :: cs
      rw [Char.ofNat_toNat, ih]

/-! ### Base64 (Node `Buffer` semantics)

`base64encodeBytes` is the canonical padded encoding produced by
`Buffer.from(str).toString('base64')`; `b64decodeBytes` is the forgiving
decoding performed by `Buffer.from(tok, 'base64')`. -/

def b64alphabet : List Char :=
  "ABCDEFGHIJKLMNOPQRSTUVWXYZabcdefghijklmnopqrstuvwxyz0123456789+/".data

def b64char (n : Nat) : Char := b64alphabet.getD n 'A'

def b64valAux : List Char → Nat → Char → Option Nat
  | [], _, _ => none
  | a :: as, i, c => if c = a then some i else b64valAux as (i + 1) c

def b64val (c : Char) : Option Nat := b64valAux b64alphabet 0 c

def base64encodeBytes : List Nat → List Char
  | [] => []
  | [a] => [b64char (a / 4), b64char (a % 4 * 16), '=', '=']
  | [a, b] => [b64char (a / 4), b64char (a % 4 * 16 + b / 16), b64char (b % 16 * 4), '=']
  | a :: b :: c :: rest =>
      b64char (a / 4) :: b64char (a % 4 * 16 + b / 16) ::
      b64char (b % 16 * 4 + c / 64) :: b64char (c % 64) :: base64encodeBytes rest

def b64sextets : List Char → List Nat
  | [] => []
  | c :: cs =>
      if c = '=' then []
      else
        match b64val c with
        | some v => v :: b64sextets cs
        | none => b64sextets cs

def sextetsToBytes : List Nat → List Nat
  | a :: b :: c :: d :: rest =>
      (a * 4 + b / 16) :: (b % 16 * 16 + c / 4) :: (c % 4 * 64 + d) :: sextetsToBytes rest
  | [a, b, c] => [a * 4 + b / 16, b % 16 * 16 + c / 4]
  | [a, b] => [a * 4 + b / 16]
  | _ => []

def b64decodeBytes (s : List Char) : List Nat := sextetsToBytes (b64sextets s)

theorem b64val_b64char : ∀ v < 64, b64val (b64char v) = some v := by decide

theorem b64char_ne_pad : ∀ v < 64, b64char v ≠ '=' := by decide

theorem b64sextets_cons (v : Nat) (hv : v < 64) (rest : List Char) :
    b64sextets (b64char v :: rest) = v :: b64sextets rest := by
  simp [b64sextets, b64char_ne_pad v hv, b64val_b64char v hv]

theorem b64sextets_pad (rest : List Char) : b64sextets ('=' :: rest) = [] := by
  simp [b64sextets]

theorem b64decode_encode (l : List Nat) (h : ∀ b ∈ l, b < 256) :
    b64decodeBytes (base64encodeBytes l) = l := by
  match l with
  | [] => simp [b64decodeBytes, base64encodeBytes, b64sextets, sextetsToBytes]
  | [a] =>
      have ha : a < 256 := h a (by simp)
      unfold b64decodeBytes
      simp only [base64encodeBytes]
      rw [b64sextets_cons _ (by omega), b64sextets_cons _ (by omega), b64sextets_pad]
      simp only [sextetsToBytes, List.cons.injEq, and_true]
      omega
  | [a, b] =>
      have ha : a < 256 := h a (by simp)
      have hb : b < 256 := h b (by simp)
      unfold b64decodeBytes
      simp only [base64encodeBytes]
      rw [b64sextets_cons _ (by omega), b64sextets_cons _ (by omega),
        b64sextets_cons _ (by omega), b64sextets_pad]
      simp only [sextetsToBytes, List.cons.injEq, and_true]
      constructor
      · omega
      · omega
  | a :: b :: c :: rest =>
      have ha : a < 256 := h a (by simp)
      have hb : b < 256 := h b (by simp)
      have hc : c < 256 := h c (by simp)
      have ih := b64decode_encode rest (fun x hx => h x (by simp [hx]))
      unfold b64decodeBytes
      simp only [base64encodeBytes]
      rw [b64sextets_cons _ (by omega), b64sextets_cons _ (by omega),
        b64sextets_cons _ (by omega), b64sextets_cons _ (by omega)]
      simp only [sextetsToBytes, List.cons.injEq]
      unfold b64decodeBytes at ih
      refine ⟨by omega, by omega, by omega, ih⟩

/-! ### Decimal rendering and JavaScript integer parsing

`natToDec` models the decimal rendering of a JavaScript number into a
template string; `parseJsInt` models `parseInt(s, 10)` (exactly so on
strings without leading whitespace or sign: the longest leading digit run
is parsed, an empty run gives `NaN`, modelled as `none`). -/

def digitChar (n : Nat) : Char := "0123456789".data.getD n '0'

def isDig (c : Char) : Bool := 48 ≤ c.toNat && c.toNat ≤ 57

def natToDecAux : Nat → Nat → List Char
  | 0, _ => []
  | fuel + 1, n =>
      if n < 10 then [digitChar n]
      else natToDecAux fuel (n / 10) ++ [digitChar (n % 10)]

def natToDec (n : Nat) : List Char := natToDecAux (n + 1) n

def decVal (ds : List Char) : Nat := ds.foldl (fun a c => a * 10 + (c.toNat - 48)) 0

def parseJsInt (l : List Char) : Option Nat :=
  let ds := l.takeWhile isDig
  if ds = [] then none else some (decVal ds)

theorem digitChar_spec : ∀ m < 10, isDig (digitChar m) = true ∧ (digitChar m).toNat = 48 + m := by
  decide

theorem isDig_ne_colon {c : Char} (h : isDig c = true) : c ≠ ':' := by
  intro he
  subst he
  exact absurd h (by decide)

theorem isDig_lt128 {c : Char} (h : isDig c = true) : c.toNat < 128 := by
  simp only [isDig, Bool.and_eq_true, decide_eq_true_eq] at h
  omega

theorem natToDecAux_all_dig (fuel : Nat) : ∀ n, ∀ c ∈ natToDecAux fuel n, isDig c = true := by
  induction fuel with
  | zero => simp [natToDecAux]
  | succ fuel ih =>
      intro n
      rw [natToDecAux]
      by_cases h : n < 10
      · simp only [if_pos h, List.mem_singleton]
        intro c hc
        subst hc
        exact (digitChar_spec n h).1
      · simp only [if_neg h, List.mem_append, List.mem_singleton]
        intro c hc
        rcases hc with hc | hc
        · exact ih (n / 10) c hc
        · subst hc
          exact (digitChar_spec (n % 10) (by omega)).1

theorem natToDec_all_dig (n : Nat) : ∀ c ∈ natToDec n, isDig c = true :=
  natToDecAux_all_dig (n + 1) n

theorem natToDec_ne_nil (n : Nat) : natToDec n ≠ [] := by
  rw [natToDec, natToDecAux]
  by_cases h : n < 10
  · simp [if_pos h]
  · simp [if_neg h]

theorem takeWhile_all {p : Char → Bool} (l : List Char) (h : ∀ c ∈ l, p c = true) :
    l.takeWhile p = l := by
  induction l with
  | nil => rfl
  | cons c cs ih =>
      simp [List.takeWhile_cons, h c (by simp), ih (fun x hx => h x (by simp [hx]))]

theorem decVal_append_digit (ds : List Char) (d : Char) :
    decVal (ds ++ [d]) = decVal ds * 10 + (d.toNat - 48) := by
  simp [decVal, List.foldl_append]

theorem decVal_natToDecAux (fuel : Nat) : ∀ n < 10 ^ fuel, decVal (natToDecAux fuel n) = n := by
  induction fuel with
  | zero =>
      intro n hn
      rw [pow_zero] at hn
      have h0 : n = 0 := by omega
      subst h0
      rfl
  | succ fuel ih =>
      intro n hn
      rw [natToDecAux]
      by_cases h : n < 10
      · simp only [if_pos h]
        have := (digitChar_spec n h).2
        simp [decVal, this]
      · simp only [if_neg h]
        have hdiv : n / 10 < 10 ^ fuel := by
          rw [pow_succ] at hn
          omega
        rw [decVal_append_digit, ih (n / 10) hdiv, (digitChar_spec (n % 10) (by omega)).2]
        omega

theorem decVal_natToDec (n : Nat) : decVal (natToDec n) = n := by
  have hb : n < 10 ^ (n + 1) :=
    lt_of_lt_of_le (Nat.lt_pow_self (by norm_num) n)
      (Nat.pow_le_pow_right (by norm_num) (Nat.le_succ n))
  exact decVal_natToDecAux (n + 1) n hb

theorem parseJsInt_natToDec (n : Nat) : parseJsInt (natToDec n) = some n := by
  unfold parseJsInt
  rw [takeWhile_all _ (natToDec_all_dig n)]
  simp only [if_neg (natToDec_ne_nil n)]
  rw [decVal_natToDec]

/-! ### Keyed signature (external crypto primitive, modelled) -/

def hexAlphabet : List Char := "0123456789abcdef".data

def hexChar (n : Nat) : Char := hexAlphabet.getD n '0'

def hexOfNat : Nat → Nat → List Char
  | 0, _ => []
  | w + 1, v => hexOfNat w (v / 16) ++ [hexChar (v % 16)]

/-- Modelled from the spec: the Token Codec computes "a keyed hash-based
message authentication code over that payload using a secret key",
rendered as a hex digest (`crypto.createHmac('sha256', ADMIN_SECRET)
.update(payload).digest('hex')` in the source — the `crypto` library is
external to this repository).  Modelled as a deterministic keyed hash of
the key and message bytes, rendered as a 64-character lowercase
hexadecimal string, matching the real digest's determinism, alphabet and
length; the compression function itself stands in for SHA-256. -/
def hmacHex (key msg : String) : String :=
  String.mk (hexOfNat 64
    ((charsToBytes key.data ++ 257 :: charsToBytes msg.data).foldl
      (fun a b => (a * 293 + b + 1) % 2 ^ 256) 5381))

theorem hexChar_mem : ∀ n < 16, hexChar n ∈ hexAlphabet := by decide

theorem hexAlphabet_props : ∀ c ∈ hexAlphabet, c ≠ ':' ∧ c.toNat < 128 := by decide

theorem hexOfNat_mem (w v : Nat) : ∀ c ∈ hexOfNat w v, c ∈ hexAlphabet := by
  induction w generalizing v with
  | zero => simp [hexOfNat]
  | succ w ih =>
      simp only [hexOfNat, List.mem_append, List.mem_singleton]
      intro c hc
      rcases hc with hc | hc
      · exact ih (v / 16) c hc
      · subst hc
        exact hexChar_mem (v % 16) (by omega)

theorem hmacHex_chars (key msg : String) :
    ∀ c ∈ (hmacHex key msg).data, c ≠ ':' ∧ c.toNat < 128 := by
  intro c hc
  exact hexAlphabet_props c (hexOfNat_mem 64 _ c hc)

/-! ### Splitting and joining on the `':'` delimiter

`splitOnChar` models JavaScript `String.prototype.split` with a
single-character separator; `joinChar` models `Array.prototype.join`. -/

def splitOnChar (sep : Char) : List Char → List (List Char)
  | [] => [[]]
  | c :: cs =>
      if c = sep then [] :: splitOnChar sep cs
      else
        match splitOnChar sep cs with
        | [] => [[c]]
        | h :: t => (c :: h) :: t

def joinChar (sep : Char) : List (List Char) → List Char
  | [] => []
  | [x] => x
  | x :: xs => x ++ sep :: joinChar sep xs

theorem splitOnChar_ne_nil (sep : Char) (l : List Char) : splitOnChar sep l ≠ [] := by
  induction l with
  | nil => simp [splitOnChar]
  | cons c cs ih =>
      rw [splitOnChar]
      by_cases h : c = sep
      · simp [if_pos h]
      · simp only [if_neg h]
        rcases he : splitOnChar sep cs with _ | ⟨x, xs⟩
        · exact absurd he ih
        · simp

theorem splitOnChar_no_sep (sep : Char) (l : List Char) (h : sep ∉ l) :
    splitOnChar sep l = [l] := by
  induction l with
  | nil => rfl
  | cons c cs ih =>
      rw [splitOnChar]
      have hc : ¬c = sep := fun he => h (by simp [he])
      simp only [if_neg hc]
      rw [ih (fun hm => h (by simp [hm]))]

theorem splitOnChar_append (sep : Char) (l1 l2 : List Char) (h : sep ∉ l1) :
    splitOnChar sep (l1 ++ sep :: l2) = l1 :: splitOnChar sep l2 := by
  induction l1 with
  | nil => simp [splitOnChar]
  | cons c cs ih =>
      have hc : ¬c = sep := fun he => h (by simp [he])
      show splitOnChar sep (c :: (cs ++ sep :: l2)) = (c :: cs) :: splitOnChar sep l2
      rw [splitOnChar]
      simp only [if_neg hc]
      rw [ih (fun hm => h (by simp [hm]))]

/-! ### Configuration and the Token Codec (`issueUnlockToken` / `verifyUnlockToken`) -/

structure Config where
  FREE_DAILY_LIMIT : Nat
  UNLOCK_TTL_SECONDS : Nat
  ADMIN_SECRET : String
deriving DecidableEq

/-- The configuration defaults of `server.js` lines 52-54. -/
def defaultCfg : Config := ⟨2, 300, "change-me"⟩

inductive VerifyResult where
  | ok (tmdb_id userId : String)
  | fail (err : String)
deriving DecidableEq

/-- The canonical payload `tmdb_id:userId:exp` of `server.js` line 78. -/
def tokenPayload (tmdb_id userId : String) (exp : Nat) : List Char :=
  tmdb_id.data ++ (':' :: (userId.data ++ (':' :: natToDec exp)))

/-- `issueUnlockToken` (`server.js` lines 76-82): hex HMAC signature over
the payload, base64 over `payload:signature`; returns the token string
and `expires_at = now + ttlSeconds * 1000`. -/
def issueUnlockToken (cfg : Config) (tmdb_id userId : String) (ttlSeconds now : Nat) :
    String × Nat :=
  (String.mk (base64encodeBytes (charsToBytes
      (tokenPayload tmdb_id userId (now + ttlSeconds * 1000) ++ ':' ::
        (hmacHex cfg.ADMIN_SECRET
          (String.mk (tokenPayload tmdb_id userId (now + ttlSeconds * 1000)))).data))),
   now + ttlSeconds * 1000)

/-- `verifyUnlockToken` (`server.js` lines 84-99): base64-decode, split on
`':'`, require at least four fields, reassemble the signature by joining
all trailing fields, recompute and compare the signature, then compare
the current time against `parseInt(expStr, 10)` (a `NaN` expiry field
compares false and is accepted, exactly as `Date.now() > NaN` is false in
the source). -/
def verifyUnlockToken (cfg : Config) (now : Nat) (token : String) : VerifyResult :=
  match splitOnChar ':' (bytesToChars (b64decodeBytes token.data)) with
  | t :: u :: e :: s :: rest =>
      if (hmacHex cfg.ADMIN_SECRET (String.mk (t ++ (':' :: (u ++ (':' :: e)))))).data =
          joinChar ':' (s :: rest) then
        match parseJsInt e with
        | some exp => if now > exp then .fail "expired" else .ok (String.mk t) (String.mk u)
        | none => .ok (String.mk t) (String.mk u)
      else .fail "bad_sig"
  | _ => .fail "bad_format"

/-- An identifier is delimiter-safe when it is ASCII and free of the `':'`
delimiter; the canonical token alphabet then stays byte-exact under the
UTF-8 and base64 models. -/
def asciiNoColon (s : String) : Bool :=
  s.data.all (fun c => decide (c.toNat < 128) && c != ':')

theorem asciiNoColon_spec {s : String} (h : asciiNoColon s = true) :
    ∀ c ∈ s.data, c.toNat < 128 ∧ c ≠ ':' := by
  intro c hc
  have := List.all_eq_true.mp h c hc
  simp only [Bool.and_eq_true, decide_eq_true_eq, bne_iff_ne] at this
  exact this

theorem verify_issue_char (cfg : Config) (tmdb_id userId : String) (ttl now t : Nat)
    (h1 : asciiNoColon tmdb_id = true) (h2 : asciiNoColon userId = true) :
    verifyUnlockToken cfg t (issueUnlockToken cfg tmdb_id userId ttl now).1 =
      if now + ttl * 1000 < t then .fail "expired" else .ok tmdb_id userId := by
  have htm := asciiNoColon_spec h1
  have hus := asciiNoColon_spec h2
  have hdig : ∀ c ∈ natToDec (now + ttl * 1000), c.toNat < 128 ∧ c ≠ ':' := by
    intro c hc
    have hd := natToDec_all_dig _ c hc
    exact ⟨isDig_lt128 hd, isDig_ne_colon hd⟩
  have hsig := hmacHex_chars cfg.ADMIN_SECRET
    (String.mk (tokenPayload tmdb_id userId (now + ttl * 1000)))
  have hPeq : tokenPayload tmdb_id userId (now + ttl * 1000) ++ ':' ::
      (hmacHex cfg.ADMIN_SECRET (String.mk (tokenPayload tmdb_id userId (now + ttl * 1000)))).data =
      tmdb_id.data ++ ':' :: (userId.data ++ ':' :: (natToDec (now + ttl * 1000) ++ ':' ::
        (hmacHex cfg.ADMIN_SECRET
          (String.mk (tokenPayload tmdb_id userId (now + ttl * 1000)))).data)) := by
    simp [tokenPayload, List.append_assoc]
  have hchars : ∀ c ∈ tokenPayload tmdb_id userId (now + ttl * 1000) ++ ':' ::
      (hmacHex cfg.ADMIN_SECRET (String.mk (tokenPayload tmdb_id userId (now + ttl * 1000)))).data,
      c.toNat < 256 := by
    rw [hPeq]
    intro c hc
    rcases List.mem_append.mp hc with hc | hc
    · exact lt_trans (htm c hc).1 (by norm_num)
    · rcases List.mem_cons.mp hc with hc | hc
      · subst hc; decide
      · rcases List.mem_append.mp hc with hc | hc
        · exact lt_trans (hus c hc).1 (by norm_num)
        · rcases List.mem_cons.mp hc with hc | hc
          · subst hc; decide
          · rcases List.mem_append.mp hc with hc | hc
            · exact lt_trans (hdig c hc).1 (by norm_num)
            · rcases List.mem_cons.mp hc with hc | hc
              · subst hc; decide
              · exact lt_trans (hsig c hc).2 (by norm_num)
  have hbytes : ∀ b ∈ charsToBytes (tokenPayload tmdb_id userId (now + ttl * 1000) ++ ':' ::
      (hmacHex cfg.ADMIN_SECRET (String.mk (tokenPayload tmdb_id userId (now + ttl * 1000)))).data),
      b < 256 := by
    intro b hb
    rcases List.mem_map.mp hb with ⟨c, hc, hcb⟩
    subst hcb
    exact hchars c hc
  show verifyUnlockToken cfg t (String.mk (base64encodeBytes (charsToBytes
      (tokenPayload tmdb_id userId (now + ttl * 1000) ++ ':' ::
        (hmacHex cfg.ADMIN_SECRET
          (String.mk (tokenPayload tmdb_id userId (now + ttl * 1000)))).data)))) = _
  unfold verifyUnlockToken
  rw [show (String.mk (base64encodeBytes (charsToBytes
      (tokenPayload tmdb_id userId (now + ttl * 1000) ++ ':' ::
        (hmacHex cfg.ADMIN_SECRET
          (String.mk (tokenPayload tmdb_id userId (now + ttl * 1000)))).data)))).data =
      base64encodeBytes (charsToBytes
      (tokenPayload tmdb_id userId (now + ttl * 1000) ++ ':' ::
        (hmacHex cfg.ADMIN_SECRET
          (String.mk (tokenPayload tmdb_id userId (now + ttl * 1000)))).data)) from rfl]
  rw [b64decode_encode _ hbytes, bytesToChars_charsToBytes, hPeq]
  rw [splitOnChar_append _ _ _ (fun hm => (htm ':' hm).2 rfl)]
  rw [splitOnChar_append _ _ _ (fun hm => (hus ':' hm).2 rfl)]
  rw [splitOnChar_append _ _ _ (fun hm => (hdig ':' hm).2 rfl)]
  rw [splitOnChar_no_sep _ _ (fun hm => (hsig ':' hm).1 rfl)]
  show (if (hmacHex cfg.ADMIN_SECRET (String.mk (tmdb_id.data ++ (':' :: (userId.data ++
      (':' :: natToDec (now + ttl * 1000))))))).data =
      joinChar ':' [(hmacHex cfg.ADMIN_SECRET
        (String.mk (tokenPayload tmdb_id userId (now + ttl * 1000)))).data]
      then _ else _) = _
  rw [show joinChar ':' [(hmacHex cfg.ADMIN_SECRET
      (String.mk (tokenPayload tmdb_id userId (now + ttl * 1000)))).data] =
      (hmacHex cfg.ADMIN_SECRET
        (String.mk (tokenPayload tmdb_id userId (now + ttl * 1000)))).data from rfl]
  rw [if_pos (show (hmacHex cfg.ADMIN_SECRET (String.mk (tmdb_id.data ++ (':' :: (userId.data ++
      (':' :: natToDec (now + ttl * 1000))))))).data =
      (hmacHex cfg.ADMIN_SECRET
        (String.mk (tokenPayload tmdb_id userId (now + ttl * 1000)))).data from rfl)]
  rw [parseJsInt_natToDec]

/-! ### Quota store and the unlock handler (`POST /unlock/:tmdb_id`) -/

structure QuotaRecord where
  user_id : String
  daily_count : Nat
  last_reset : Option Nat
  last_unlock_at : Option Nat
  blocked_until : Option Nat
deriving DecidableEq

def MILLIS_PER_DAY : Nat := 86400000

/-- The most recent UTC midnight before `now`
(`Date.UTC(now.getUTCFullYear(), now.getUTCMonth(), now.getUTCDate(), 0, 0, 0)`
at `server.js` line 121): JavaScript time counts milliseconds from the
epoch's UTC midnight with every day exactly 86400000 ms long (no leap
seconds), so decomposing `now` into a UTC calendar date and reassembling
it at 00:00:00 equals flooring to a whole number of days. -/
def mostRecentUtcMidnight (now : Nat) : Nat := now / MILLIS_PER_DAY * MILLIS_PER_DAY

/-- `needsDailyReset` (`server.js` lines 118-124); `none` models an
absent (falsy) `last_reset` timestamp. -/
def needsDailyReset (lastReset : Option Nat) (now : Nat) : Bool :=
  match lastReset with
  | none => true
  | some l => decide (l < mostRecentUtcMidnight now)

/-- `getQuotaDocRef` (`server.js` lines 102-116): create-if-absent with
`daily_count = 0`, `last_reset = now`, null `last_unlock_at` and null
`blocked_until`; an existing record is returned unmodified. -/
def getQuotaDocRef (userId : String) (now : Nat) (stored : Option QuotaRecord) : QuotaRecord :=
  match stored with
  | some q => q
  | none => ⟨userId, 0, some now, none, none⟩

/-- The daily-reset step of the unlock handler (`server.js` lines
304-307): on a due reset the stored record gets `daily_count := 0` and
`last_reset := now` (Firestore server timestamp), and the local copy's
`daily_count` is zeroed before quota evaluation. -/
def resetIfNeeded (now : Nat) (q : QuotaRecord) : QuotaRecord :=
  if needsDailyReset q.last_reset now then { q with daily_count := 0, last_reset := some now }
  else q

/-- The cooldown test of `server.js` line 308:
`quota.blocked_until && quota.blocked_until.toMillis() > Date.now()`. -/
def inCooldown (blockedUntil : Option Nat) (now : Nat) : Bool :=
  match blockedUntil with
  | some b => decide (now < b)
  | none => false

inductive UnlockResponse where
  | userIdRequired
  | cooldown (blockedUntil : Nat)
  | granted (token : String) (expiresIn : Nat) (usedFreeQuota : Bool)
      (remainingFree : Option Nat) (monetized : Bool)
  | quotaExhausted
deriving DecidableEq

/-- Quota evaluation of the unlock handler (`server.js` lines 311-329),
reached after the reset step and the cooldown check.  Returns the JSON
response and the quota record as left in the store (`remaining_free` only
on the free path, `monetized` only on the ad paths, matching the emitted
JSON fields; `expires_in = (expires_at - Date.now()) / 1000`). -/
def quotaDecision (cfg : Config) (now : Nat) (tmdb_id userId : String)
    (adSuccess : Bool) (adType : Option String) (q1 : QuotaRecord) :
    UnlockResponse × QuotaRecord :=
  if q1.daily_count < cfg.FREE_DAILY_LIMIT ∧ adSuccess = false then
    (.granted (issueUnlockToken cfg tmdb_id userId cfg.UNLOCK_TTL_SECONDS now).1
       (((issueUnlockToken cfg tmdb_id userId cfg.UNLOCK_TTL_SECONDS now).2 - now) / 1000)
       true (some (cfg.FREE_DAILY_LIMIT - (q1.daily_count + 1))) false,
     { q1 with daily_count := q1.daily_count + 1, last_unlock_at := some now })
  else if adSuccess = true ∧ adType = some "interstitial" then
    (.granted (issueUnlockToken cfg tmdb_id userId cfg.UNLOCK_TTL_SECONDS now).1
       (((issueUnlockToken cfg tmdb_id userId cfg.UNLOCK_TTL_SECONDS now).2 - now) / 1000)
       false none true,
     { q1 with last_unlock_at := some now })
  else if adSuccess = true ∧ adType = some "rewarded" then
    (.granted (issueUnlockToken cfg tmdb_id userId cfg.UNLOCK_TTL_SECONDS now).1
       (((issueUnlockToken cfg tmdb_id userId cfg.UNLOCK_TTL_SECONDS now).2 - now) / 1000)
       false none true,
     { q1 with last_unlock_at := some now })
  else (.quotaExhausted, q1)

/-- The cooldown gate of the unlock handler (`server.js` lines 308-310):
on an active cooldown, refuse with the `blocked_until` timestamp and
leave the record as the reset step left it; otherwise fall through to
quota evaluation. -/
def unlockCore (cfg : Config) (now : Nat) (tmdb_id userId : String)
    (adSuccess : Bool) (adType : Option String) (q1 : QuotaRecord) :
    UnlockResponse × QuotaRecord :=
  if inCooldown q1.blocked_until now then (.cooldown (q1.blocked_until.getD 0), q1)
  else quotaDecision cfg now tmdb_id userId adSuccess adType q1

/-- The unlock handler `POST /unlock/:tmdb_id` (`server.js` lines
296-334): require a (truthy) `userId`, get-or-create the quota record,
apply the daily reset, check the cooldown, then evaluate quota.  The
second component is the stored record after the request (`stored`
untouched when the request is rejected for a missing `userId`).  The
handler never consults the movies collection: no movie store appears in
its arguments. -/
def requestUnlock (cfg : Config) (now : Nat) (tmdb_id userId : String)
    (adSuccess : Bool) (adType : Option String) (stored : Option QuotaRecord) :
    UnlockResponse × Option QuotaRecord :=
  if userId = "" then (.userIdRequired, stored)
  else
    ((unlockCore cfg now tmdb_id userId adSuccess adType
        (resetIfNeeded now (getQuotaDocRef userId now stored))).1,
     some (unlockCore cfg now tmdb_id userId adSuccess adType
        (resetIfNeeded now (getQuotaDocRef userId now stored))).2)

/-! ### The validation handler (`POST /validate-unlock/:tmdb_id`) -/

structure MovieDoc where
  published : Bool
  links : List String
deriving DecidableEq

inductive ValidateResponse where
  | tokenRequired
  | invalidToken (reason : String)
  | tokenMismatch
  | notFound
  | notPublished
  | ok (links : List String)
deriving DecidableEq

/-- The validation handler `POST /validate-unlock/:tmdb_id` (`server.js`
lines 336-353).  The movies collection is the read-only lookup `store`;
the handler performs no writes (its type returns only the response).
`token = ""` models the falsy missing-token check of line 340. -/
def validateUnlock (cfg : Config) (now : Nat) (store : String → Option MovieDoc)
    (tmdb_id token : String) : ValidateResponse :=
  if token = "" then .tokenRequired
  else
    match verifyUnlockToken cfg now token with
    | .fail e => .invalidToken e
    | .ok t _ =>
        if t ≠ tmdb_id then .tokenMismatch
        else
          match store tmdb_id with
          | none => .notFound
          | some d => if d.published = false then .notPublished else .ok d.links

/-! ### Handler lemmas -/

theorem resetIfNeeded_blocked (now : Nat) (q : QuotaRecord) :
    (resetIfNeeded now q).blocked_until = q.blocked_until := by
  unfold resetIfNeeded
  split <;> rfl

theorem requestUnlock_eq (cfg : Config) (now : Nat) (tmdb_id userId : String)
    (adSuccess : Bool) (adType : Option String) (q : QuotaRecord)
    (hu : userId ≠ "") (hc : inCooldown q.blocked_until now = false) :
    requestUnlock cfg now tmdb_id userId adSuccess adType (some q) =
      ((quotaDecision cfg now tmdb_id userId adSuccess adType (resetIfNeeded now q)).1,
       some (quotaDecision cfg now tmdb_id userId adSuccess adType (resetIfNeeded now q)).2) := by
  unfold requestUnlock unlockCore
  rw [if_neg hu, show getQuotaDocRef userId now (some q) = q from rfl,
    resetIfNeeded_blocked, hc]
  simp

theorem requestUnlock_cooldown (cfg : Config) (now : Nat) (tmdb_id userId : String)
    (adSuccess : Bool) (adType : Option String) (q : QuotaRecord) (b : Nat)
    (hu : userId ≠ "") (hb : q.blocked_until = some b) (hnow : now < b) :
    requestUnlock cfg now tmdb_id userId adSuccess adType (some q) =
      (.cooldown b, some (resetIfNeeded now q)) := by
  unfold requestUnlock unlockCore
  rw [if_neg hu, show getQuotaDocRef userId now (some q) = q from rfl,
    resetIfNeeded_blocked, hb]
  simp [inCooldown, hnow]

theorem issue_expiresIn (cfg : Config) (tmdb_id userId : String) (ttl now : Nat) :
    ((issueUnlockToken cfg tmdb_id userId ttl now).2 - now) / 1000 = ttl := by
  rw [show (issueUnlockToken cfg tmdb_id userId ttl now).2 = now + ttl * 1000 from rfl]
  omega

theorem quotaDecision_free (cfg : Config) (now : Nat) (tmdb_id userId : String)
    (adType : Option String) (q1 : QuotaRecord)
    (h : q1.daily_count < cfg.FREE_DAILY_LIMIT) :
    quotaDecision cfg now tmdb_id userId false adType q1 =
      (.granted (issueUnlockToken cfg tmdb_id userId cfg.UNLOCK_TTL_SECONDS now).1
         cfg.UNLOCK_TTL_SECONDS true
         (some (cfg.FREE_DAILY_LIMIT - (q1.daily_count + 1))) false,
       { q1 with daily_count := q1.daily_count + 1, last_unlock_at := some now }) := by
  unfold quotaDecision
  rw [if_pos ⟨h, rfl⟩, issue_expiresIn]

theorem quotaDecision_ad (cfg : Config) (now : Nat) (tmdb_id userId : String)
    (adType : String) (q1 : QuotaRecord)
    (h : adType = "interstitial" ∨ adType = "rewarded") :
    quotaDecision cfg now tmdb_id userId true (some adType) q1 =
      (.granted (issueUnlockToken cfg tmdb_id userId cfg.UNLOCK_TTL_SECONDS now).1
         cfg.UNLOCK_TTL_SECONDS false none true,
       { q1 with last_unlock_at := some now }) := by
  unfold quotaDecision
  rw [if_neg (fun hh => by cases hh.2)]
  rcases h with h | h
  · rw [if_pos ⟨rfl, by rw [h]⟩, issue_expiresIn]
  · rw [if_neg (fun hh => by rw [h] at hh; exact absurd (Option.some.inj hh.2) (by decide))]
    rw [if_pos ⟨rfl, by rw [h]⟩, issue_expiresIn]

theorem quotaDecision_exhausted_noAd (cfg : Config) (now : Nat) (tmdb_id userId : String)
    (adType : Option String) (q1 : QuotaRecord)
    (h : ¬q1.daily_count < cfg.FREE_DAILY_LIMIT) :
    quotaDecision cfg now tmdb_id userId false adType q1 = (.quotaExhausted, q1) := by
  unfold quotaDecision
  rw [if_neg (fun hh => h hh.1), if_neg (fun hh => by cases hh.1),
    if_neg (fun hh => by cases hh.1)]

theorem quotaDecision_exhausted_badAd (cfg : Config) (now : Nat) (tmdb_id userId t : String)
    (q1 : QuotaRecord) (h1 : t ≠ "interstitial") (h2 : t ≠ "rewarded") :
    quotaDecision cfg now tmdb_id userId true (some t) q1 = (.quotaExhausted, q1) := by
  unfold quotaDecision
  rw [if_neg (fun hh => by cases hh.2),
    if_neg (fun hh => h1 (Option.some.inj hh.2)),
    if_neg (fun hh => h2 (Option.some.inj hh.2))]

theorem stringMk_ne_empty {l : List Char} (h : l ≠ []) : String.mk l ≠ "" :=
  fun he => h (congrArg String.data he)

theorem base64encodeBytes_ne_nil (l : List Nat) (h : l ≠ []) : base64encodeBytes l ≠ [] := by
  match l with
  | [] => exact absurd rfl h
  | [a] => simp [base64encodeBytes]
  | [a, b] => simp [base64encodeBytes]
  | a :: b :: c :: rest => simp [base64encodeBytes]

theorem issue_token_ne_empty (cfg : Config) (tmdb_id userId : String) (ttl now : Nat) :
    (issueUnlockToken cfg tmdb_id userId ttl now).1 ≠ "" := by
  apply stringMk_ne_empty
  apply base64encodeBytes_ne_nil
  simp [charsToBytes, tokenPayload]

/-! ### Claims -/

set_option maxRecDepth 100000 in
/-- C1 (counterexample): the round-trip claim fails for identifier strings
containing the `':'` delimiter: a token issued for `tmdb_id = "a:b"`,
`subjectId = "u"`, ttl 1 s is rejected with `bad_sig` when verified
immediately (time 0, well before expiry), because the naive `split(':')`
misparses the payload — it does not return the original identifiers. -/
theorem C1_counterexample :
    verifyUnlockToken defaultCfg 0 (issueUnlockToken defaultCfg "a:b" "u" 1 0).1 =
      .fail "bad_sig" ∧
    verifyUnlockToken defaultCfg 0 (issueUnlockToken defaultCfg "a:b" "u" 1 0).1 ≠
      .ok "a:b" "u" := by
  constructor
  · decide
  · decide

/-- C1 (amended): for every resourceId and subjectId that are ASCII and
free of the `':'` delimiter, and every positive ttl, verifying a token
produced by `issueUnlockToken` strictly before its expiry time succeeds
and returns exactly the original resourceId and subjectId. -/
theorem C1_round_trip (cfg : Config) (tmdb_id userId : String) (ttl now t : Nat)
    (h1 : asciiNoColon tmdb_id = true) (h2 : asciiNoColon userId = true)
    (_h3 : 0 < ttl) (ht : t < now + ttl * 1000) :
    verifyUnlockToken cfg t (issueUnlockToken cfg tmdb_id userId ttl now).1 =
      .ok tmdb_id userId := by
  rw [verify_issue_char cfg tmdb_id userId ttl now t h1 h2, if_neg (by omega)]

/-- C1 witness: the round trip at concrete inputs. -/
theorem C1_round_trip_witness :
    verifyUnlockToken defaultCfg 999 (issueUnlockToken defaultCfg "42" "user1" 1 0).1 =
      .ok "42" "user1" :=
  C1_round_trip defaultCfg "42" "user1" 1 0 999 (by decide) (by decide) (by decide) (by decide)

set_option maxRecDepth 100000 in
/-- C3 (counterexample): at the exact expiry instant the token is still
accepted: the token issued at time 0 with ttl 1 s has
`expiresAtMillis = 1000`, and verification at time 1000 returns `ok`, not
`Expired` — the source tests `Date.now() > exp`, not `>=`. -/
theorem C3_counterexample :
    (issueUnlockToken defaultCfg "1" "u" 1 0).2 = 1000 ∧
    verifyUnlockToken defaultCfg 1000 (issueUnlockToken defaultCfg "1" "u" 1 0).1 =
      .ok "1" "u" := by
  constructor
  · rfl
  · decide

/-- C3 (amended): verification of an issued token fails with `Expired`
exactly when the current time is strictly greater than `expiresAtMillis`
(issuance time plus ttl), and a well-signed token is accepted whenever
the current time is less than or equal to `expiresAtMillis` (identifiers
ASCII and delimiter-free). -/
theorem C3_expiry_boundary (cfg : Config) (tmdb_id userId : String) (ttl now t : Nat)
    (h1 : asciiNoColon tmdb_id = true) (h2 : asciiNoColon userId = true) :
    (verifyUnlockToken cfg t (issueUnlockToken cfg tmdb_id userId ttl now).1 =
        .fail "expired" ↔ (issueUnlockToken cfg tmdb_id userId ttl now).2 < t) ∧
    (t ≤ (issueUnlockToken cfg tmdb_id userId ttl now).2 →
      verifyUnlockToken cfg t (issueUnlockToken cfg tmdb_id userId ttl now).1 =
        .ok tmdb_id userId) := by
  have h := verify_issue_char cfg tmdb_id userId ttl now t h1 h2
  rw [show (issueUnlockToken cfg tmdb_id userId ttl now).2 = now + ttl * 1000 from rfl]
  constructor
  · rw [h]
    by_cases hlt : now + ttl * 1000 < t
    · simp [if_pos hlt, hlt]
    · simp [if_neg hlt, hlt]
  · intro hle
    rw [h, if_neg (by omega)]

/-- C3 witness: for a token issued at time 0 with ttl 1 s, verification at
time 1500 is `expired` and verification at time 1000 (the boundary) is
accepted. -/
theorem C3_expiry_boundary_witness :
    verifyUnlockToken defaultCfg 1500 (issueUnlockToken defaultCfg "1" "u" 1 0).1 =
      .fail "expired" ∧
    verifyUnlockToken defaultCfg 1000 (issueUnlockToken defaultCfg "1" "u" 1 0).1 =
      .ok "1" "u" :=
  ⟨(C3_expiry_boundary defaultCfg "1" "u" 1 0 1500 (by decide) (by decide)).1.mpr (by decide),
   (C3_expiry_boundary defaultCfg "1" "u" 1 0 1000 (by decide) (by decide)).2 (by decide)⟩

/-- Exactly one character position differs between two strings of equal
length. -/
def oneCharDiff (s t : String) : Bool :=
  decide (s.data.length = t.data.length) &&
    (s.data.zip t.data).countP (fun p => p.1 != p.2) == 1

set_option maxRecDepth 100000 in
/-- C8 (counterexample): changing exactly one character of an issued
token can leave verification succeeding: the token issued for
(`"1"`, `"u"`, ttl 1 s, time 0) ends in `Yw==`; changing the `w` (whose
low four base64 bits the decoder discards) to `x` yields a different
string that still decodes to the same bytes and still verifies to
`ok "1" "u"` — not `MalformedToken`, not `BadSignature`. -/
theorem C8_counterexample :
    oneCharDiff (issueUnlockToken defaultCfg "1" "u" 1 0).1
      "MTp1OjEwMDA6MDAwMDAwMDAwMDAwMDAwMDAwMDAwMDAwZWVjMGI3MGZkMTBlNWJjOGIxNzZjMDM3MDFmMzBjZTEyZjgyOWYyYx==" = true ∧
    verifyUnlockToken defaultCfg 0
      "MTp1OjEwMDA6MDAwMDAwMDAwMDAwMDAwMDAwMDAwMDAwZWVjMGI3MGZkMTBlNWJjOGIxNzZjMDM3MDFmMzBjZTEyZjgyOWYyYx==" =
      .ok "1" "u" := by
  constructor
  · decide
  · decide

/-- C8 (amended): `verifyUnlockToken` factors through the forgiving
base64 decoding, so any altered string whose decoding coincides with the
issued token's — in particular a single-character change confined to
padding or to bits the decoder ignores — verifies exactly as the original
token does (succeeding before expiry); only alterations that change the
decoded byte string can be rejected with `MalformedToken` or
`BadSignature`. -/
theorem C8_tamper_decode (cfg : Config) (t : Nat) (tok tok2 : String)
    (hdec : b64decodeBytes tok2.data = b64decodeBytes tok.data) :
    verifyUnlockToken cfg t tok2 = verifyUnlockToken cfg t tok := by
  unfold verifyUnlockToken
  rw [hdec]

set_option maxRecDepth 100000 in
/-- C8 witness: the altered token of the counterexample decodes equal and
verifies equal. -/
theorem C8_tamper_decode_witness :
    verifyUnlockToken defaultCfg 0
      "MTp1OjEwMDA6MDAwMDAwMDAwMDAwMDAwMDAwMDAwMDAwZWVjMGI3MGZkMTBlNWJjOGIxNzZjMDM3MDFmMzBjZTEyZjgyOWYyYx==" =
    verifyUnlockToken defaultCfg 0
      "MTp1OjEwMDA6MDAwMDAwMDAwMDAwMDAwMDAwMDAwMDAwZWVjMGI3MGZkMTBlNWJjOGIxNzZjMDM3MDFmMzBjZTEyZjgyOWYyYw==" :=
  C8_tamper_decode defaultCfg 0 _ _ (by decide)

/-- C9: `verifyUnlockToken` is total — on every input string whatsoever
it returns either a success carrying the decoded resourceId and subjectId
or a typed failure, whose reason is one of `bad_format`, `bad_sig`,
`expired` (the source's catch-all `exception` branch is unreachable for
string inputs: none of the decoding steps throws). -/
theorem C9_verify_total (cfg : Config) (now : Nat) (token : String) :
    (∃ a b, verifyUnlockToken cfg now token = .ok a b) ∨
    verifyUnlockToken cfg now token = .fail "bad_format" ∨
    verifyUnlockToken cfg now token = .fail "bad_sig" ∨
    verifyUnlockToken cfg now token = .fail "expired" := by
  unfold verifyUnlockToken
  split
  · split
    · split
      · split
        · right; right; right; rfl
        · left; exact ⟨_, _, rfl⟩
      · left; exact ⟨_, _, rfl⟩
    · right; right; left; rfl
  · right; left; rfl

/-- C2 (counterexample): a refused-for-cooldown request can modify the
quota record: with `blocked_until` 10 minutes in the future and a reset
due (`last_reset` on the previous UTC day), the handler first performs
the daily reset (zeroing `daily_count`, stamping `last_reset`) and only
then refuses with `cooldown` — the stored record is not left unmodified,
and the refusal is not decided before the reset step. -/
theorem C2_counterexample :
    (requestUnlock defaultCfg 86400005 "m" "u" false none
        (some ⟨"u", 2, some 0, none, some 87000005⟩)).1 = .cooldown 87000005 ∧
    (requestUnlock defaultCfg 86400005 "m" "u" false none
        (some ⟨"u", 2, some 0, none, some 87000005⟩)).2 ≠
      some ⟨"u", 2, some 0, none, some 87000005⟩ := by
  constructor
  · decide
  · decide

/-- C2 (amended): for every unlock request whose quota record has
`blockedUntil` strictly in the future, the request is refused with
`Cooldown(blockedUntil)` regardless of `dailyCount` and before any quota
evaluation; the refusal is decided after the daily-reset step, and the
stored record is exactly the record as the reset step left it (no other
field is modified). -/
theorem C2_cooldown_refusal (cfg : Config) (now : Nat) (tmdb_id userId : String)
    (adSuccess : Bool) (adType : Option String) (q : QuotaRecord) (b : Nat)
    (hu : userId ≠ "") (hb : q.blocked_until = some b) (hnow : now < b) :
    requestUnlock cfg now tmdb_id userId adSuccess adType (some q) =
      (.cooldown b, some (resetIfNeeded now q)) :=
  requestUnlock_cooldown cfg now tmdb_id userId adSuccess adType q b hu hb hnow

/-- C2 witness: even an ad-claiming request with plenty of quota is
refused while the cooldown is active. -/
theorem C2_cooldown_refusal_witness :
    requestUnlock defaultCfg 50 "m" "u" true (some "interstitial")
        (some ⟨"u", 7, some 40, none, some 99⟩) =
      (.cooldown 99, some ⟨"u", 7, some 40, none, some 99⟩) :=
  C2_cooldown_refusal defaultCfg 50 "m" "u" true (some "interstitial")
    ⟨"u", 7, some 40, none, some 99⟩ 99 (by decide) rfl (by decide)

/-- C4: a request that is not in cooldown, has `dailyCount` below
`FREE_DAILY_LIMIT` after the reset step and claims no ad is granted via
free quota: `daily_count` incremented, `last_unlock_at` stamped, a token
issued, `used_free_quota = true` and
`remaining_free = FREE_DAILY_LIMIT - (dailyCount after increment)`; and a
request with `dailyCount` at the limit (no reset due, no ad claim) is
refused with `quota_exhausted` and leaves the record unchanged. -/
theorem C4_free_quota (cfg : Config) (now : Nat) (tmdb_id userId : String)
    (q : QuotaRecord) (hu : userId ≠ "")
    (hc : inCooldown q.blocked_until now = false)
    (hq : (resetIfNeeded now q).daily_count < cfg.FREE_DAILY_LIMIT) :
    requestUnlock cfg now tmdb_id userId false none (some q) =
      (.granted (issueUnlockToken cfg tmdb_id userId cfg.UNLOCK_TTL_SECONDS now).1
         cfg.UNLOCK_TTL_SECONDS true
         (some (cfg.FREE_DAILY_LIMIT - ((resetIfNeeded now q).daily_count + 1))) false,
       some { resetIfNeeded now q with
                daily_count := (resetIfNeeded now q).daily_count + 1,
                last_unlock_at := some now }) ∧
    (∀ q2 : QuotaRecord, q2.daily_count = cfg.FREE_DAILY_LIMIT →
        needsDailyReset q2.last_reset now = false →
        inCooldown q2.blocked_until now = false →
        requestUnlock cfg now tmdb_id userId false none (some q2) =
          (.quotaExhausted, some q2)) := by
  constructor
  · rw [requestUnlock_eq cfg now tmdb_id userId false none q hu hc,
      quotaDecision_free cfg now tmdb_id userId none _ hq]
  · intro q2 hq2 hr2 hc2
    have hreset2 : resetIfNeeded now q2 = q2 := by
      unfold resetIfNeeded
      rw [hr2]
      simp
    rw [requestUnlock_eq cfg now tmdb_id userId false none q2 hu hc2, hreset2,
      quotaDecision_exhausted_noAd cfg now tmdb_id userId none q2 (by rw [hq2]; exact lt_irrefl _)]

/-- C4 witness: with the default limit 2 and `daily_count = 1`, the grant
has `remaining_free = 0`, and the follow-up record at the limit is
refused. -/
theorem C4_free_quota_witness :
    requestUnlock defaultCfg 5 "9" "u" false none (some ⟨"u", 1, some 4, none, none⟩) =
      (.granted (issueUnlockToken defaultCfg "9" "u" 300 5).1 300 true (some 0) false,
       some ⟨"u", 2, some 4, some 5, none⟩) ∧
    requestUnlock defaultCfg 5 "9" "u" false none (some ⟨"u", 2, some 4, some 5, none⟩) =
      (.quotaExhausted, some ⟨"u", 2, some 4, some 5, none⟩) :=
  ⟨(C4_free_quota defaultCfg 5 "9" "u" ⟨"u", 1, some 4, none, none⟩
      (by decide) (by decide) (by decide)).1,
   (C4_free_quota defaultCfg 5 "9" "u" ⟨"u", 1, some 4, none, none⟩
      (by decide) (by decide) (by decide)).2 ⟨"u", 2, some 4, some 5, none⟩
      (by decide) (by decide) (by decide)⟩

/-- C5: a request that claims an ad was watched with type `interstitial`
or `rewarded` (no cooldown, no reset due) is granted with
`monetized = true`, `used_free_quota = false`, `last_unlock_at` stamped
and `daily_count` unchanged — even when `daily_count` is at (or beyond)
the limit, since the record is arbitrary; an ad claim with any other type
falls through to `quota_exhausted` with the record unchanged. -/
theorem C5_monetized (cfg : Config) (now : Nat) (tmdb_id userId adType : String)
    (q : QuotaRecord) (hu : userId ≠ "")
    (hr : needsDailyReset q.last_reset now = false)
    (hc : inCooldown q.blocked_until now = false)
    (hT : adType = "interstitial" ∨ adType = "rewarded") :
    requestUnlock cfg now tmdb_id userId true (some adType) (some q) =
      (.granted (issueUnlockToken cfg tmdb_id userId cfg.UNLOCK_TTL_SECONDS now).1
         cfg.UNLOCK_TTL_SECONDS false none true,
       some { q with last_unlock_at := some now }) ∧
    (∀ t : String, t ≠ "interstitial" → t ≠ "rewarded" →
        requestUnlock cfg now tmdb_id userId true (some t) (some q) =
          (.quotaExhausted, some q)) := by
  have hreset : resetIfNeeded now q = q := by
    unfold resetIfNeeded
    rw [hr]
    simp
  constructor
  · rw [requestUnlock_eq cfg now tmdb_id userId true (some adType) q hu hc, hreset,
      quotaDecision_ad cfg now tmdb_id userId adType q hT]
  · intro t h1 h2
    rw [requestUnlock_eq cfg now tmdb_id userId true (some t) q hu hc, hreset,
      quotaDecision_exhausted_badAd cfg now tmdb_id userId t q h1 h2]

/-- C5 witness: an `interstitial` claim is granted with the record at the
limit (`daily_count = 2` with default limit 2), leaving `daily_count`
unchanged; a `banner` claim is refused. -/
theorem C5_monetized_witness :
    requestUnlock defaultCfg 5 "9" "u" true (some "interstitial")
        (some ⟨"u", 2, some 4, none, none⟩) =
      (.granted (issueUnlockToken defaultCfg "9" "u" 300 5).1 300 false none true,
       some ⟨"u", 2, some 4, some 5, none⟩) ∧
    requestUnlock defaultCfg 5 "9" "u" true (some "banner")
        (some ⟨"u", 2, some 4, none, none⟩) =
      (.quotaExhausted, some ⟨"u", 2, some 4, none, none⟩) :=
  ⟨(C5_monetized defaultCfg 5 "9" "u" "interstitial" ⟨"u", 2, some 4, none, none⟩
      (by decide) (by decide) (by decide) (Or.inl rfl)).1,
   (C5_monetized defaultCfg 5 "9" "u" "interstitial" ⟨"u", 2, some 4, none, none⟩
      (by decide) (by decide) (by decide) (Or.inl rfl)).2 "banner" (by decide) (by decide)⟩

/-- C6: `needsDailyReset lastResetAt` is true exactly when `lastResetAt`
is absent or strictly below the most recent UTC midnight; and a subject
at the limit whose `last_reset` is on a previous UTC day is reset before
quota evaluation and granted an ad-free unlock with
`remaining_free = FREE_DAILY_LIMIT - 1`. -/
theorem C6_daily_reset (cfg : Config) (now y : Nat) (lr : Option Nat)
    (tmdb_id userId : String) (q : QuotaRecord) :
    (needsDailyReset lr now = true ↔
      lr = none ∨ ∃ l, lr = some l ∧ l < mostRecentUtcMidnight now) ∧
    (userId ≠ "" → q.daily_count = cfg.FREE_DAILY_LIMIT → q.last_reset = some y →
      y < mostRecentUtcMidnight now → inCooldown q.blocked_until now = false →
      0 < cfg.FREE_DAILY_LIMIT →
      requestUnlock cfg now tmdb_id userId false none (some q) =
        (.granted (issueUnlockToken cfg tmdb_id userId cfg.UNLOCK_TTL_SECONDS now).1
           cfg.UNLOCK_TTL_SECONDS true (some (cfg.FREE_DAILY_LIMIT - 1)) false,
         some ⟨q.user_id, 1, some now, some now, q.blocked_until⟩)) := by
  constructor
  · cases lr with
    | none => simp [needsDailyReset]
    | some l => simp [needsDailyReset]
  · intro hu _hdc hlr hy hc hL
    have hcond : needsDailyReset q.last_reset now = true := by
      rw [hlr]
      simp [needsDailyReset, hy]
    have hreset : resetIfNeeded now q =
        { q with daily_count := 0, last_reset := some now } := by
      unfold resetIfNeeded
      rw [hcond]
      simp
    rw [requestUnlock_eq cfg now tmdb_id userId false none q hu hc, hreset,
      quotaDecision_free cfg now tmdb_id userId none _ hL]

/-- C6 witness: a record at the default limit 2 with `last_reset` on the
previous UTC day is granted on the first request of the next day with
`remaining_free = 1`. -/
theorem C6_daily_reset_witness :
    needsDailyReset (some 0) 86400005 = true ∧
    requestUnlock defaultCfg 86400005 "9" "u" false none
        (some ⟨"u", 2, some 0, none, none⟩) =
      (.granted (issueUnlockToken defaultCfg "9" "u" 300 86400005).1 300 true
         (some 1) false,
       some ⟨"u", 1, some 86400005, some 86400005, none⟩) :=
  ⟨(C6_daily_reset defaultCfg 86400005 0 (some 0) "9" "u"
      ⟨"u", 2, some 0, none, none⟩).1.mpr (Or.inr ⟨0, rfl, by decide⟩),
   (C6_daily_reset defaultCfg 86400005 0 (some 0) "9" "u"
      ⟨"u", 2, some 0, none, none⟩).2 (by decide) rfl rfl (by decide) (by decide) (by decide)⟩

/-- C7: validation checks run in the fixed order token-verification
(propagating the verifier's failure reason), resource comparison
(`token_mismatch`), resource lookup (`not found`), published check
(`not published`), and only on passing all four are the download links
returned; in particular a verified token for an unpublished resource
yields `not published` and the links are never returned.  Validation is a
pure function of the store: no state is mutated. -/
theorem C7_validation_order (cfg : Config) (now : Nat) (store : String → Option MovieDoc)
    (tmdb_id token : String) (htok : token ≠ "") :
    (∀ e, verifyUnlockToken cfg now token = .fail e →
        validateUnlock cfg now store tmdb_id token = .invalidToken e) ∧
    (∀ a b, verifyUnlockToken cfg now token = .ok a b → a ≠ tmdb_id →
        validateUnlock cfg now store tmdb_id token = .tokenMismatch) ∧
    (∀ b, verifyUnlockToken cfg now token = .ok tmdb_id b → store tmdb_id = none →
        validateUnlock cfg now store tmdb_id token = .notFound) ∧
    (∀ b d, verifyUnlockToken cfg now token = .ok tmdb_id b → store tmdb_id = some d →
        d.published = false →
        validateUnlock cfg now store tmdb_id token = .notPublished ∧
        ∀ links, validateUnlock cfg now store tmdb_id token ≠ .ok links) ∧
    (∀ b d, verifyUnlockToken cfg now token = .ok tmdb_id b → store tmdb_id = some d →
        d.published = true →
        validateUnlock cfg now store tmdb_id token = .ok d.links) := by
  refine ⟨?_, ?_, ?_, ?_, ?_⟩
  · intro e he
    unfold validateUnlock
    rw [if_neg htok, he]
  · intro a b hab hne
    unfold validateUnlock
    rw [if_neg htok, hab]
    show (if a ≠ tmdb_id then ValidateResponse.tokenMismatch else _) = _
    rw [if_pos hne]
  · intro b hb hstore
    unfold validateUnlock
    rw [if_neg htok, hb]
    show (if tmdb_id ≠ tmdb_id then ValidateResponse.tokenMismatch else _) = _
    rw [if_neg (fun h => h rfl), hstore]
  · intro b d hb hstore hpub
    have heq : validateUnlock cfg now store tmdb_id token = .notPublished := by
      unfold validateUnlock
      rw [if_neg htok, hb]
      show (if tmdb_id ≠ tmdb_id then ValidateResponse.tokenMismatch else _) = _
      rw [if_neg (fun h => h rfl), hstore]
      show (if d.published = false then ValidateResponse.notPublished else _) = _
      rw [if_pos hpub]
    exact ⟨heq, fun links hlk => by
      rw [heq] at hlk
      exact ValidateResponse.noConfusion hlk⟩
  · intro b d hb hstore hpub
    unfold validateUnlock
    rw [if_neg htok, hb]
    show (if tmdb_id ≠ tmdb_id then ValidateResponse.tokenMismatch else _) = _
    rw [if_neg (fun h => h rfl), hstore]
    show (if d.published = false then ValidateResponse.notPublished else _) = _
    rw [if_neg (by simp [hpub])]

set_option maxRecDepth 100000 in
/-- C7 witness: a correctly signed, unexpired token for a resource whose
`published = false` fails with `not published`. -/
theorem C7_validation_order_witness :
    validateUnlock defaultCfg 0
        (fun s => if s = "42" then some ⟨false, ["secret-link"]⟩ else none) "42"
        (issueUnlockToken defaultCfg "42" "u" 1 0).1 = .notPublished :=
  ((C7_validation_order defaultCfg 0
      (fun s => if s = "42" then some ⟨false, ["secret-link"]⟩ else none) "42"
      (issueUnlockToken defaultCfg "42" "u" 1 0).1
      (by decide)).2.2.2.1 "u" ⟨false, ["secret-link"]⟩ (by decide) rfl rfl).1

/-- C10: the unlock decision never consults the movies collection (no
movie store occurs among `requestUnlock`'s arguments), so a request with
available quota is granted and a signed token issued for an arbitrary
resourceId — including one naming a movie absent from the store — and
only later validation reports `not found` for that same token. -/
theorem C10_unlock_ignores_resource (cfg : Config) (now : Nat) (tmdb_id userId : String)
    (q : QuotaRecord) (store : String → Option MovieDoc)
    (hu : userId ≠ "") (h1 : asciiNoColon tmdb_id = true) (h2 : asciiNoColon userId = true)
    (hc : inCooldown q.blocked_until now = false)
    (hq : (resetIfNeeded now q).daily_count < cfg.FREE_DAILY_LIMIT)
    (hstore : store tmdb_id = none) :
    (requestUnlock cfg now tmdb_id userId false none (some q)).1 =
      .granted (issueUnlockToken cfg tmdb_id userId cfg.UNLOCK_TTL_SECONDS now).1
        cfg.UNLOCK_TTL_SECONDS true
        (some (cfg.FREE_DAILY_LIMIT - ((resetIfNeeded now q).daily_count + 1))) false ∧
    validateUnlock cfg now store tmdb_id
        (issueUnlockToken cfg tmdb_id userId cfg.UNLOCK_TTL_SECONDS now).1 = .notFound := by
  constructor
  · rw [requestUnlock_eq cfg now tmdb_id userId false none q hu hc,
      quotaDecision_free cfg now tmdb_id userId none _ hq]
  · have hok : verifyUnlockToken cfg now
        (issueUnlockToken cfg tmdb_id userId cfg.UNLOCK_TTL_SECONDS now).1 =
        .ok tmdb_id userId := by
      rw [verify_issue_char cfg tmdb_id userId cfg.UNLOCK_TTL_SECONDS now now h1 h2,
        if_neg (by omega)]
    unfold validateUnlock
    rw [if_neg (issue_token_ne_empty cfg tmdb_id userId cfg.UNLOCK_TTL_SECONDS now), hok]
    show (if tmdb_id ≠ tmdb_id then ValidateResponse.tokenMismatch else _) = _
    rw [if_neg (fun h => h rfl), hstore]

set_option maxRecDepth 100000 in
/-- C10 witness: the unlock for a resource id absent from the movie store
is granted, and validating the issued token against that store is
`not found`. -/
theorem C10_unlock_ignores_resource_witness :
    (requestUnlock defaultCfg 5 "9" "u" false none
        (some ⟨"u", 0, some 4, none, none⟩)).1 =
      .granted (issueUnlockToken defaultCfg "9" "u" 300 5).1 300 true (some 1) false ∧
    validateUnlock defaultCfg 5 (fun _ => none) "9"
        (issueUnlockToken defaultCfg "9" "u" 300 5).1 = .notFound :=
  C10_unlock_ignores_resource defaultCfg 5 "9" "u" ⟨"u", 0, some 4, none, none⟩
    (fun _ => none) (by decide) (by decide) (by decide) (by decide) (by decide) rfl
